import Mathlib

/-!
Verification of the HC-06 health-monitor app (src/App.tsx, first component).
The connection lifecycle (connect / disconnect / deadline timer / error handler),
the discovery match rule, and the line-oriented ingestion pipeline
(handleData / parseData) are embedded as executable Lean functions over an
explicit application state.  JS numbers are modelled as rationals; JS strings
as Lean strings, with character-level helpers mirroring String.prototype.split,
trim, toUpperCase and the finite-decimal fragment of parseFloat.
-/

namespace HC06

/-- Three-axis accelerometer part of the Reading Store (src/App.tsx line 23). -/
structure Accel where
  x : ℚ
  y : ℚ
  z : ℚ
deriving DecidableEq, Repr

/-- The Reading Store snapshot: the `data` state (src/App.tsx lines 22-25). -/
structure SensorData where
  accelerometer : Accel
  heartRate : ℚ
  temperature : ℚ
  ecg : ℚ
  spo2 : ℚ
deriving DecidableEq, Repr

/-- Initial `data` value (src/App.tsx lines 22-25): x 0, y 0, z 9.8,
heartRate 72, temperature 36.8, ecg 950, spo2 98. -/
def initialData : SensorData where
  accelerometer := { x := 0, y := 0, z := 49/5 }
  heartRate := 72
  temperature := 184/5
  ecg := 950
  spo2 := 98

/-- The partial decode produced by `parseData` (the `result` object,
src/App.tsx line 136): a `some` field means the corresponding key was
assigned on the object and will overwrite the store on merge. -/
structure ParsedFields where
  heartRate : Option ℚ := none
  temperature : Option ℚ := none
  ecg : Option ℚ := none
  spo2 : Option ℚ := none
  accelerometer : Option Accel := none
deriving DecidableEq, Repr

/-- The empty decode, `result = {}` with no key ever assigned. -/
def emptyParsed : ParsedFields := {}

/-- JS String.prototype.split with a one-character separator, on char lists:
"a,,b".split(',') = ["a","","b"], "".split(',') = [""]. -/
def splitOnChar (sep : Char) : List Char → List (List Char)
  | [] => [[]]
  | c :: cs =>
    match splitOnChar sep cs with
    | [] => [[]]
    | h :: t => if c = sep then [] :: h :: t else (c :: h) :: t

/-- JS String.prototype.trim (whitespace at both ends removed). -/
def trimChars (l : List Char) : List Char :=
  ((l.dropWhile Char.isWhitespace).reverse.dropWhile Char.isWhitespace).reverse

/-- JS String.prototype.toUpperCase on the ASCII range. -/
def toUpperChars (l : List Char) : List Char := l.map Char.toUpper

/-- Whether the first char list is a literal prefix of the second. -/
def startsWithSeq : List Char → List Char → Bool
  | [], _ => true
  | _ :: _, [] => false
  | p :: ps, c :: cs => p == c && startsWithSeq ps cs

/-- JS String.prototype.includes: `pat` occurs contiguously (case-sensitive)
somewhere in the second list. -/
def containsSeq (pat : List Char) : List Char → Bool
  | [] => startsWithSeq pat []
  | c :: cs => startsWithSeq pat (c :: cs) || containsSeq pat cs

/-- Decimal digit run to a natural number. -/
def digitsToNat (l : List Char) : ℕ := l.foldl (fun a c => a * 10 + (c.toNat - 48)) 0

/-- Unsigned mantissa of JS parseFloat: digits, digits "." digits, or "." digits;
returns the value and the unconsumed rest, or none when no digit is found. -/
def parseMantissa (l : List Char) : Option (ℚ × List Char) :=
  let ip := l.takeWhile Char.isDigit
  let r1 := l.dropWhile Char.isDigit
  if ip.isEmpty then
    match r1 with
    | '.' :: r2 =>
      let fp := r2.takeWhile Char.isDigit
      if fp.isEmpty then none
      else some ((digitsToNat fp : ℚ) / (10 : ℚ) ^ fp.length, r2.dropWhile Char.isDigit)
    | _ => none
  else
    match r1 with
    | '.' :: r2 =>
      let fp := r2.takeWhile Char.isDigit
      some ((digitsToNat ip : ℚ) + (digitsToNat fp : ℚ) / (10 : ℚ) ^ fp.length,
        r2.dropWhile Char.isDigit)
    | _ => some ((digitsToNat ip : ℚ), r1)

/-- Optional exponent suffix of JS parseFloat ("e"/"E", optional sign, digits);
yields the multiplier, 1 when no well-formed exponent follows. -/
def parseExponent (l : List Char) : ℚ :=
  match l with
  | 'e' :: r | 'E' :: r =>
    let sr : ℤ × List Char :=
      match r with
      | '-' :: r' => (-1, r')
      | '+' :: r' => (1, r')
      | _ => (1, r)
    let ds := sr.2.takeWhile Char.isDigit
    if ds.isEmpty then 1 else (10 : ℚ) ^ (sr.1 * (digitsToNat ds : ℤ))
  | _ => 1

/-- JS parseFloat on its finite-decimal fragment: leading whitespace skipped,
optional sign, longest valid numeric prefix taken, trailing characters
ignored; `none` models NaN (no valid numeric prefix at all).  JS additionally
parses an "Infinity" literal to the value Infinity, which ℚ cannot
represent; such values are detected by isInfinityLit, and pairSkipped never
classifies a pair carrying one as skipped, so every theorem whose hypothesis
is built from pairSkipped stays away from the unrepresentable case. -/
def parseFloatL (l : List Char) : Option ℚ :=
  let l1 := l.dropWhile Char.isWhitespace
  match l1 with
  | '-' :: r => (parseMantissa r).map (fun p => -(p.1 * parseExponent p.2))
  | '+' :: r => (parseMantissa r).map (fun p => p.1 * parseExponent p.2)
  | _ => (parseMantissa l1).map (fun p => p.1 * parseExponent p.2)

/-- JS Math.round: nearest integer, ties toward positive infinity. -/
def jsRound (q : ℚ) : ℤ := ⌊q + 1/2⌋

/-- `parseFloat(v.toFixed(1))` (src/App.tsx line 152): round to one decimal. -/
def toFixed1 (q : ℚ) : ℚ := (jsRound (q * 10) : ℚ) / 10

/-- One iteration of `parts.forEach` in parseData (src/App.tsx lines 140-155):
split the pair on ':', skip when key or value is missing/empty, uppercase the
trimmed key, parse the value with parseFloat, skip on NaN, then dispatch on
the symbol table (AX/AY/AZ update the accel copy, HR/TEMP/ECG/SPO2 assign
rounded fields on the result object; unknown keys fall through). -/
def parsePair (st : ParsedFields × Accel) (part : List Char) : ParsedFields × Accel :=
  match splitOnChar ':' part with
  | key :: val :: _ =>
    if key.isEmpty ∨ val.isEmpty then st
    else
      let k := toUpperChars (trimChars key)
      match parseFloatL val with
      | none => st
      | some v =>
        if k = "AX".toList then (st.1, { st.2 with x := v })
        else if k = "AY".toList then (st.1, { st.2 with y := v })
        else if k = "AZ".toList then (st.1, { st.2 with z := v })
        else if k = "HR".toList then ({ st.1 with heartRate := some (jsRound v : ℤ) }, st.2)
        else if k = "TEMP".toList then ({ st.1 with temperature := some (toFixed1 v) }, st.2)
        else if k = "ECG".toList then ({ st.1 with ecg := some (jsRound v : ℤ) }, st.2)
        else if k = "SPO2".toList then ({ st.1 with spo2 := some (jsRound v : ℤ) }, st.2)
        else st
  | _ => st

/-- parseData (src/App.tsx lines 135-162): split the line on ',', fold the
pairs, and attach the accelerometer copy to the result only when it differs
from the snapshot `data.accelerometer` it started from. -/
def parseData (data : SensorData) (l : List Char) : ParsedFields :=
  let parts := splitOnChar ',' l
  let fa := parts.foldl parsePair (emptyParsed, data.accelerometer)
  if fa.2 = data.accelerometer then fa.1 else { fa.1 with accelerometer := some fa.2 }

/-- The functional update `prev => ({ ...prev, ...parsed })`
(src/App.tsx line 128): fields present in the decode win, all others keep
their previous value. -/
def applyParsed (prev : SensorData) (p : ParsedFields) : SensorData where
  accelerometer := p.accelerometer.getD prev.accelerometer
  heartRate := p.heartRate.getD prev.heartRate
  temperature := p.temperature.getD prev.temperature
  ecg := p.ecg.getD prev.ecg
  spo2 := p.spo2.getD prev.spo2

/-- handleData (src/App.tsx lines 121-133) on a delivered line, chars form.
The subscription callback is registered once, at connect (line 97), so it
closes over that render's handleData/parseData forever: parseData reads the
`data` of the connect render (`snap`, the stale closure snapshot), while the
functional `setData(prev => ...)` update merges into the live store
(`prev`).  Trim, silently drop an empty result, parse against the snapshot,
and merge into the live store only when the decode assigned at least one key
(`Object.keys(parsed).length > 0`). -/
def handleDataL (snap prev : SensorData) (raw : List Char) : SensorData :=
  let str := trimChars raw
  if str.isEmpty then prev
  else
    let parsed := parseData snap str
    if parsed = emptyParsed then prev else applyParsed prev parsed

/-- handleData on a string, as the onDataReceived callback receives it. -/
def handleData (snap prev : SensorData) (raw : String) : SensorData :=
  handleDataL snap prev raw.toList

/-- Whether JS parseFloat would read an Infinity literal here: after leading
whitespace and an optional sign the value starts with "Infinity".  JS parses
such a value to plus or minus Infinity (not NaN), outside the rational
model. -/
def isInfinityLit (l : List Char) : Bool :=
  let l1 := l.dropWhile Char.isWhitespace
  let l2 :=
    match l1 with
    | '-' :: r => r
    | '+' :: r => r
    | _ => l1
  startsWithSeq "Infinity".toList l2

/-- A pair the forEach body skips without touching result or accel: missing
or empty key/value, a value with no numeric prefix (parseFloat NaN — an
Infinity literal is NOT NaN in JS and is therefore never counted as
skipped), or a key outside the symbol table. -/
def pairSkipped (p : List Char) : Bool :=
  match splitOnChar ':' p with
  | key :: val :: _ =>
    if key.isEmpty ∨ val.isEmpty then true
    else if isInfinityLit val then false
    else
      match parseFloatL val with
      | none => true
      | some _ =>
        decide (¬(toUpperChars (trimChars key) = "AX".toList ∨
          toUpperChars (trimChars key) = "AY".toList ∨
          toUpperChars (trimChars key) = "AZ".toList ∨
          toUpperChars (trimChars key) = "HR".toList ∨
          toUpperChars (trimChars key) = "TEMP".toList ∨
          toUpperChars (trimChars key) = "ECG".toList ∨
          toUpperChars (trimChars key) = "SPO2".toList))
  | _ => true

/-- Modelled from the spec: the transport adapter in line-delimiter mode
(CONNECTION_OPTIONS.DELIMITER = newline, src/App.tsx line 16) buffers raw
bytes and hands each complete newline-terminated line to the registered
onDataReceived callback, i.e. to handleData.  That buffering/splitting lives
in react-native-bluetooth-classic, outside src/; this state carries the
fixed connect-render snapshot the registered callback closed over, the live
Reading Store, and the transport's partial-line buffer. -/
structure PipeState where
  snap : SensorData
  store : SensorData
  buf : List Char
deriving DecidableEq, Repr

/-- Modelled from the spec: one byte arriving at the delimiter-mode transport:
a newline delivers the buffered line to handleData, any other byte is
appended to the buffer. -/
def feedByte (st : PipeState) (c : Char) : PipeState :=
  if c = '\n' then { st with store := handleDataL st.snap st.store st.buf, buf := [] }
  else { st with buf := st.buf ++ [c] }

/-- Feed one received chunk byte-by-byte through the transport. -/
def feedChunk (st : PipeState) (chunk : List Char) : PipeState := chunk.foldl feedByte st

/-- Feed a sequence of chunks, in arrival order. -/
def feedChunks (st : PipeState) (chunks : List (List Char)) : PipeState :=
  chunks.foldl feedChunk st

/-- The connection lifecycle states (the `status` state, src/App.tsx line 21;
'disconnected' is the idle state). -/
inductive Status
  | disconnected
  | connecting
  | connected
  | failed
deriving DecidableEq, Repr

/-- A pending deadline timer (timeoutRef, src/App.tsx lines 31, 75-81).
`capturedStatus` is the value of `status` the setTimeout callback closed over
when the timer was created: the callback body compares that captured value,
not the live state, against 'connecting'. -/
structure PendingTimer where
  capturedStatus : Status
deriving DecidableEq, Repr

/-- A Bluetooth peripheral as the adapter reports it: `name` may be absent
(the code reads `d.name?`), identity by address. -/
structure BTDevice where
  name : Option String
  address : String
deriving DecidableEq, Repr

/-- The component state relevant to the connection lifecycle: `status` and
`device` (useState), deviceRef / subscriptionRef / timeoutRef (useRef),
the log list and the Reading Store, plus two counters instrumenting how many
times the adapter's connect and disconnect were actually invoked. -/
structure AppState where
  status : Status
  device : Option BTDevice
  deviceRef : Option BTDevice
  subscription : Bool
  timer : Option PendingTimer
  logs : List String
  data : SensorData
  adapterConnectCalls : ℕ
  adapterDisconnectCalls : ℕ
deriving DecidableEq, Repr

/-- Results of the awaited adapter calls one event may perform:
`device.isConnected()`, `device.connect(...)` (either may throw, carrying a
message, or return a Bool) and `device.disconnect()` (may throw). -/
structure Adapter where
  isConnectedResult : Except String Bool
  connectResult : Except String Bool
  disconnectResult : Except String Unit
deriving Repr

/-- addLog (src/App.tsx lines 33-36): prepend the message, keep the previous
ten entries (timestamps are not modelled). -/
def addLog (msg : String) (st : AppState) : AppState :=
  { st with logs := msg :: st.logs.take 10 }

/-- disconnect (src/App.tsx lines 103-119), run to completion: remove the
data subscription; if a device ref exists, call adapter disconnect (logging
'Disconnected' on success, swallowing any thrown error) and clear the ref;
cancel any pending timer; and finally set status 'disconnected'. -/
def disconnect (env : Adapter) (st : AppState) : AppState :=
  let st1 := { st with subscription := false }
  let st2 :=
    if st1.deviceRef.isSome then
      let stc := { st1 with adapterDisconnectCalls := st1.adapterDisconnectCalls + 1 }
      let stl :=
        match env.disconnectResult with
        | .ok _ => addLog "Disconnected" stc
        | .error _ => stc
      { stl with deviceRef := none }
    else st1
  let st3 := { st2 with timer := none }
  { st3 with status := Status.disconnected }

/-- handleError (src/App.tsx lines 164-170): clear the timer, set status
'failed', log the adapter's message verbatim, then run disconnect (whose
final step resets the status; the Alert is not modelled). -/
def handleError (env : Adapter) (msg : String) (st : AppState) : AppState :=
  let st1 := { st with timer := none }
  let st2 := { st1 with status := Status.failed }
  let st3 := addLog ("✗ Failed: " ++ msg) st2
  disconnect env st3

/-- The success tail of connect (src/App.tsx lines 93-97): clear the timer,
set status 'connected', log, and register the data subscription. -/
def connectSuccess (st : AppState) : AppState :=
  let st1 := { st with timer := none }
  let st2 := { st1 with status := Status.connected }
  let st3 := addLog "✓ Connected" st2
  { st3 with subscription := true }

/-- The synchronous prefix of connect once past its guard (src/App.tsx lines
72-84): set status 'connecting', log, start the deadline timer — whose
callback closes over the `status` value current at this render — and set
deviceRef, all before the first await. -/
def connectBody (st : AppState) : AppState :=
  let captured := st.status
  let st1 := { st with status := Status.connecting }
  let st2 := addLog "Connecting..." st1
  let st3 := { st2 with timer := some { capturedStatus := captured } }
  { st3 with deviceRef := st3.device }

/-- connect up to its first suspension point (src/App.tsx lines 69-84): the
guard rejects the call unless status is 'disconnected' and a device is
selected; otherwise the synchronous prefix runs. -/
def connectStart (st : AppState) : AppState :=
  if st.status = Status.disconnected ∧ st.device.isSome then connectBody st else st

/-- The remainder of connect after the first await (src/App.tsx lines 85-100):
ask the adapter whether the device is already connected; if not, invoke
adapter connect (counted); a false result raises 'Connection failed'; any
thrown error goes to handleError; otherwise the success tail runs. -/
def connectFinish (env : Adapter) (st : AppState) : AppState :=
  match env.isConnectedResult with
  | .error msg => handleError env msg st
  | .ok already =>
    if already then connectSuccess st
    else
      let st1 := { st with adapterConnectCalls := st.adapterConnectCalls + 1 }
      match env.connectResult with
      | .error msg => handleError env msg st1
      | .ok ok2 => if ok2 then connectSuccess st1 else handleError env "Connection failed" st1

/-- connect (src/App.tsx lines 69-101), run to completion. -/
def connect (env : Adapter) (st : AppState) : AppState :=
  if st.status = Status.disconnected ∧ st.device.isSome then
    connectFinish env (connectBody st)
  else st

/-- The deadline firing (the setTimeout callback, src/App.tsx lines 75-81):
the callback compares the `status` it captured at creation with 'connecting';
on a match it runs disconnect, sets status 'failed' and logs 'Timeout',
otherwise it does nothing.  Firing consumes the pending timer. -/
def fireTimeout (env : Adapter) (st : AppState) : AppState :=
  match st.timer with
  | none => st
  | some t =>
    let st1 := { st with timer := none }
    if t.capturedStatus = Status.connecting then
      let st2 := disconnect env st1
      let st3 := { st2 with status := Status.failed }
      addLog "Timeout" st3
    else st1

/-- The match rule shared by initBluetooth (src/App.tsx line 56) and scan
(line 207): `d.name?.includes('HC-06')` — case-sensitive exact substring
match on the advertised name, false when the name is absent. -/
def nameMatches (d : BTDevice) : Bool :=
  match d.name with
  | some n => containsSeq "HC-06".toList n.toList
  | none => false

/-- `devices.find(d => d.name?.includes('HC-06'))`: first matching device in
enumeration order, none when no device matches. -/
def findHC06 (devices : List BTDevice) : Option BTDevice := devices.find? nameMatches

/-- The two discovery phases composed in the spec's order: the bonded-device
list (initBluetooth, lines 55-63) is consulted first; only when it yields no
match is the active-scan result (scan, lines 206-216) consulted, with the
same match rule; none models NotFound. -/
def resolve (bonded discovered : List BTDevice) : Option BTDevice :=
  match findHC06 bonded with
  | some d => some d
  | none => findHC06 discovered

/-- Concrete fixtures used by witness and counterexample theorems. -/
def devA : BTDevice := { name := some "HC-06 sensor", address := "00:11:22:33:44:55" }

/-- An idle state with a selected device, as after a successful discovery. -/
def idleState : AppState where
  status := Status.disconnected
  device := some devA
  deviceRef := none
  subscription := false
  timer := none
  logs := ["App started"]
  data := initialData
  adapterConnectCalls := 0
  adapterDisconnectCalls := 0

/-- The same state mid-attempt (status 'connecting'). -/
def busyState : AppState := { idleState with status := Status.connecting }

/-- An adapter run where connect succeeds. -/
def okEnv : Adapter where
  isConnectedResult := .ok false
  connectResult := .ok true
  disconnectResult := .ok ()

/-- An adapter run where connect throws "boom". -/
def failEnv : Adapter where
  isConnectedResult := .ok false
  connectResult := .error "boom"
  disconnectResult := .ok ()

/-- Component-wise behaviour of handleError followed by its teardown. -/
theorem handleError_after (env : Adapter) (msg : String) (st : AppState) :
    (handleError env msg st).status = Status.disconnected ∧
    (handleError env msg st).timer = none ∧
    (handleError env msg st).subscription = false ∧
    (handleError env msg st).deviceRef = none ∧
    ("✗ Failed: " ++ msg) ∈ (handleError env msg st).logs := by
  unfold handleError disconnect addLog
  rcases hd : st.deviceRef with _ | d <;>
    rcases env.disconnectResult with e | u <;>
      simp [hd, List.take_succ_cons]

/-- C1: a connect call finding the state anything but 'disconnected' (or no
device selected) returns the state untouched: no transition, no timer, no
adapter-connect invocation; in particular a second connect issued after a
first one has passed its synchronous prefix is a complete no-op, so two rapid
connect invocations produce at most one adapter-connect invocation. -/
theorem connect_rejected_unless_idle :
    (∀ (env : Adapter) (st : AppState),
        st.status ≠ Status.disconnected → connect env st = st) ∧
    (∀ (env : Adapter) (st : AppState),
        connect env (connectStart st) = connectStart st) := by
  constructor
  · intro env st h
    unfold connect
    rw [if_neg]
    intro hc
    exact h hc.1
  · intro env st
    by_cases hg : st.status = Status.disconnected ∧ st.device.isSome
    · have h1 : connectStart st = connectBody st := by rw [connectStart, if_pos hg]
      have h2 : (connectBody st).status = Status.connecting := rfl
      rw [h1]
      unfold connect
      rw [if_neg]
      intro hc
      rw [h2] at hc
      exact absurd hc.1 (by simp)
    · have h1 : connectStart st = st := by rw [connectStart, if_neg hg]
      rw [h1]
      unfold connect
      rw [if_neg hg]

/-- Witness for C1 at a concrete mid-attempt state. -/
theorem connect_rejected_unless_idle_witness :
    busyState.status ≠ Status.disconnected ∧ connect okEnv busyState = busyState :=
  ⟨by decide, connect_rejected_unless_idle.1 okEnv busyState (by decide)⟩

/-- C2, failing-input evaluation: after connect's synchronous prefix the state
is 'connecting' and the pending deadline's callback captured 'disconnected'
(the render-time value of `status`); when the deadline fires while the state
is still 'connecting', the callback compares its stale captured value against
'connecting', fails the test, and does nothing but consume the timer — the
state stays 'connecting' and never reaches 'failed'.  The decision is made on
the closure-captured status, not the current one, so the timeout path of the
code is unreachable. -/
theorem fireTimeout_decides_on_stale_capture :
    (connectStart idleState).status = Status.connecting ∧
    (connectStart idleState).timer = some { capturedStatus := Status.disconnected } ∧
    fireTimeout okEnv (connectStart idleState) = { connectStart idleState with timer := none } ∧
    (fireTimeout okEnv (connectStart idleState)).status = Status.connecting ∧
    (fireTimeout okEnv (connectStart idleState)).adapterDisconnectCalls = 0 :=
  ⟨rfl, rfl, rfl, rfl, rfl⟩

/-- C3 counterexample: with the adapter's connect throwing "boom" during a
connect attempt from the idle state, the completed run ends with status
'disconnected', not 'failed' — handleError sets 'failed' but then invokes
disconnect, whose final step unconditionally resets the status. -/
theorem connect_error_final_state_not_failed :
    (connect failEnv idleState).status = Status.disconnected ∧
    (connect failEnv idleState).status ≠ Status.failed :=
  ⟨rfl, by decide⟩

/-- C3 amended: any adapter error during 'connecting' — an isConnected
throw, a connect throw, or a false return from connect (reported as
"Connection failed") — cancels the deadline timer, tears down partial state
(subscription removed, device ref cleared), reports the adapter's error
verbatim in the log, and transitions to 'failed' only transiently: the
teardown it triggers ends the session in 'disconnected' (the idle state,
from which a retry is possible). -/
theorem connect_adapter_error_teardown (env : Adapter) (st : AppState) (msg : String)
    (h1 : st.status = Status.disconnected) (h2 : st.device.isSome)
    (herr : env.isConnectedResult = Except.error msg ∨
      (env.isConnectedResult = Except.ok false ∧ env.connectResult = Except.error msg) ∨
      (env.isConnectedResult = Except.ok false ∧ env.connectResult = Except.ok false ∧
        msg = "Connection failed")) :
    (connect env st).status = Status.disconnected ∧
    (connect env st).timer = none ∧
    (connect env st).subscription = false ∧
    (connect env st).deviceRef = none ∧
    ("✗ Failed: " ++ msg) ∈ (connect env st).logs := by
  obtain ⟨ic, cr, dr⟩ := env
  have hg : st.status = Status.disconnected ∧ st.device.isSome := ⟨h1, h2⟩
  rcases herr with h3 | ⟨h3, h4⟩ | ⟨h3, h4, h5⟩
  · have h3' : ic = Except.error msg := h3
    subst h3'
    have hrw : connect ⟨Except.error msg, cr, dr⟩ st =
        handleError ⟨Except.error msg, cr, dr⟩ msg (connectBody st) := by
      unfold connect
      rw [if_pos hg]
      rfl
    rw [hrw]
    exact handleError_after _ _ _
  · have h3' : ic = Except.ok false := h3
    have h4' : cr = Except.error msg := h4
    subst h3'
    subst h4'
    have hrw : connect ⟨Except.ok false, Except.error msg, dr⟩ st =
        handleError ⟨Except.ok false, Except.error msg, dr⟩ msg
          { connectBody st with
            adapterConnectCalls := (connectBody st).adapterConnectCalls + 1 } := by
      unfold connect
      rw [if_pos hg]
      rfl
    rw [hrw]
    exact handleError_after _ _ _
  · have h3' : ic = Except.ok false := h3
    have h4' : cr = Except.ok false := h4
    subst h3'
    subst h4'
    subst h5
    have hrw : connect ⟨Except.ok false, Except.ok false, dr⟩ st =
        handleError ⟨Except.ok false, Except.ok false, dr⟩ "Connection failed"
          { connectBody st with
            adapterConnectCalls := (connectBody st).adapterConnectCalls + 1 } := by
      unfold connect
      rw [if_pos hg]
      rfl
    rw [hrw]
    exact handleError_after _ _ _

/-- Witness for C3's amended theorem at the concrete failing run (connect
throwing "boom"). -/
theorem connect_adapter_error_teardown_witness :
    (connect failEnv idleState).status = Status.disconnected ∧
    (connect failEnv idleState).timer = none ∧
    (connect failEnv idleState).subscription = false ∧
    (connect failEnv idleState).deviceRef = none ∧
    ("✗ Failed: " ++ "boom") ∈ (connect failEnv idleState).logs :=
  connect_adapter_error_teardown failEnv idleState "boom" rfl rfl
    (Or.inr (Or.inl ⟨rfl, rfl⟩))

/-- C4: disconnect is valid from every state and idempotent: it always ends
with status 'disconnected', no pending timer, no data subscription and no
device ref; it invokes the adapter's disconnect exactly when a device ref
exists; a thrown adapter-disconnect error changes none of that (it is
swallowed); and running disconnect again, under any adapter behaviour,
changes nothing.  As a total function it cannot throw. -/
theorem disconnect_total_idempotent :
    ∀ (env env' : Adapter) (st : AppState),
      (disconnect env st).status = Status.disconnected ∧
      (disconnect env st).timer = none ∧
      (disconnect env st).subscription = false ∧
      (disconnect env st).deviceRef = none ∧
      (disconnect env st).adapterDisconnectCalls =
        st.adapterDisconnectCalls + (if st.deviceRef.isSome then 1 else 0) ∧
      disconnect env' (disconnect env st) = disconnect env st := by
  intro env env' st
  unfold disconnect addLog
  rcases hd : st.deviceRef with _ | d <;>
    rcases env.disconnectResult with e | u <;>
      rcases env'.disconnectResult with e' | u' <;>
        simp [hd]

/-- C9: the discovery resolver (bonded list first, then the active-scan
result) picks the first device in enumeration order whose name contains
'HC-06'; it returns none (NotFound) exactly when no device on either list
matches; the match is a case-sensitive substring test that fails on a
lower-case name and on an absent name. -/
theorem resolver_first_name_match :
    ∀ bonded discovered : List BTDevice,
      resolve bonded discovered = (bonded ++ discovered).find? nameMatches ∧
      (resolve bonded discovered = none ↔
        ∀ d ∈ bonded ++ discovered, nameMatches d = false) ∧
      nameMatches { name := some "my hc-06", address := "aa" } = false ∧
      nameMatches { name := some "room HC-065", address := "bb" } = true ∧
      nameMatches { name := none, address := "cc" } = false := by
  intro bonded discovered
  have hfind : ∀ l1 l2 : List BTDevice,
      (l1 ++ l2).find? nameMatches =
        match l1.find? nameMatches with
        | some d => some d
        | none => l2.find? nameMatches := by
    intro l1 l2
    induction l1 with
    | nil => simp
    | cons a t ih =>
      by_cases ha : nameMatches a
      · simp [List.find?, ha]
      · simp [List.find?, ha, ih]
  have h1 : resolve bonded discovered = (bonded ++ discovered).find? nameMatches := by
    rw [hfind]
    rfl
  refine ⟨h1, ?_, by decide, by decide, by decide⟩
  rw [h1, List.find?_eq_none]
  simp


/-- Characterisation of Math.round through its floor definition. -/
theorem jsRound_eq (q : ℚ) (n : ℤ) (h1 : (n : ℚ) ≤ q + 1/2) (h2 : q + 1/2 < n + 1) :
    jsRound q = n := by
  rw [jsRound]
  exact Int.floor_eq_iff.mpr ⟨h1, h2⟩

/-- parseFloat("81") = 81. -/
theorem parseFloatL_81 : parseFloatL "81".toList = some 81 := by
  have h1 : parseFloatL "81".toList =
      some ((digitsToNat ['8', '1'] : ℚ) * parseExponent []) := rfl
  rw [h1, show digitsToNat ['8', '1'] = 81 from by decide,
    show parseExponent [] = 1 from rfl]
  norm_num

/-- parseFloat("81abc") = 81: the numeric prefix is used, the tail ignored. -/
theorem parseFloatL_81abc : parseFloatL "81abc".toList = some 81 := by
  have h1 : parseFloatL "81abc".toList =
      some ((digitsToNat ['8', '1'] : ℚ) * parseExponent ['a', 'b', 'c']) := rfl
  rw [h1, show digitsToNat ['8', '1'] = 81 from by decide,
    show parseExponent ['a', 'b', 'c'] = 1 from rfl]
  norm_num

/-- parseFloat("36.7") = 367/10. -/
theorem parseFloatL_36_7 : parseFloatL "36.7".toList = some (367/10) := by
  have h1 : parseFloatL "36.7".toList =
      some (((digitsToNat ['3', '6'] : ℚ) + (digitsToNat ['7'] : ℚ) / (10 : ℚ) ^ (1 : ℕ)) *
        parseExponent []) := rfl
  rw [h1, show digitsToNat ['3', '6'] = 36 from by decide,
    show digitsToNat ['7'] = 7 from by decide, show parseExponent [] = 1 from rfl]
  norm_num

/-- parseFloat("0.10") = 1/10. -/
theorem parseFloatL_0_10 : parseFloatL "0.10".toList = some (1/10) := by
  have h1 : parseFloatL "0.10".toList =
      some (((digitsToNat ['0'] : ℚ) + (digitsToNat ['1', '0'] : ℚ) / (10 : ℚ) ^ (2 : ℕ)) *
        parseExponent []) := rfl
  rw [h1, show digitsToNat ['0'] = 0 from by decide,
    show digitsToNat ['1', '0'] = 10 from by decide, show parseExponent [] = 1 from rfl]
  norm_num

/-- Math.round(81) = 81. -/
theorem jsRound_81 : jsRound 81 = 81 := jsRound_eq _ _ (by norm_num) (by norm_num)

/-- (36.7).toFixed(1) reparsed = 36.7. -/
theorem toFixed1_36_7 : toFixed1 (367/10) = 367/10 := by
  rw [toFixed1, jsRound_eq (367/10 * 10) 367 (by norm_num) (by norm_num)]
  norm_num

/-- Evaluation of the forEach body on the pair "HR:81". -/
theorem parsePair_HR81 (st : ParsedFields × Accel) :
    parsePair st "HR:81".toList = ({ st.1 with heartRate := some 81 }, st.2) := by
  have hsp : splitOnChar ':' "HR:81".toList = ["HR".toList, "81".toList] := by decide
  simp only [parsePair, hsp]
  rw [if_neg (by decide : ¬("HR".toList.isEmpty = true ∨ "81".toList.isEmpty = true))]
  simp only [parseFloatL_81]
  rw [if_neg (by decide : ¬(toUpperChars (trimChars "HR".toList) = "AX".toList)),
    if_neg (by decide : ¬(toUpperChars (trimChars "HR".toList) = "AY".toList)),
    if_neg (by decide : ¬(toUpperChars (trimChars "HR".toList) = "AZ".toList)),
    if_pos (by decide : toUpperChars (trimChars "HR".toList) = "HR".toList),
    jsRound_81]
  norm_num

/-- Evaluation of the forEach body on the pair "HR:81abc": the numeric prefix
of the value is used. -/
theorem parsePair_HR81abc (st : ParsedFields × Accel) :
    parsePair st "HR:81abc".toList = ({ st.1 with heartRate := some 81 }, st.2) := by
  have hsp : splitOnChar ':' "HR:81abc".toList = ["HR".toList, "81abc".toList] := by decide
  simp only [parsePair, hsp]
  rw [if_neg (by decide : ¬("HR".toList.isEmpty = true ∨ "81abc".toList.isEmpty = true))]
  simp only [parseFloatL_81abc]
  rw [if_neg (by decide : ¬(toUpperChars (trimChars "HR".toList) = "AX".toList)),
    if_neg (by decide : ¬(toUpperChars (trimChars "HR".toList) = "AY".toList)),
    if_neg (by decide : ¬(toUpperChars (trimChars "HR".toList) = "AZ".toList)),
    if_pos (by decide : toUpperChars (trimChars "HR".toList) = "HR".toList),
    jsRound_81]
  norm_num

/-- Evaluation of the forEach body on the pair "TEMP:36.7". -/
theorem parsePair_TEMP36_7 (st : ParsedFields × Accel) :
    parsePair st "TEMP:36.7".toList = ({ st.1 with temperature := some (367/10) }, st.2) := by
  have hsp : splitOnChar ':' "TEMP:36.7".toList = ["TEMP".toList, "36.7".toList] := by decide
  simp only [parsePair, hsp]
  rw [if_neg (by decide : ¬("TEMP".toList.isEmpty = true ∨ "36.7".toList.isEmpty = true))]
  simp only [parseFloatL_36_7]
  rw [if_neg (by decide : ¬(toUpperChars (trimChars "TEMP".toList) = "AX".toList)),
    if_neg (by decide : ¬(toUpperChars (trimChars "TEMP".toList) = "AY".toList)),
    if_neg (by decide : ¬(toUpperChars (trimChars "TEMP".toList) = "AZ".toList)),
    if_neg (by decide : ¬(toUpperChars (trimChars "TEMP".toList) = "HR".toList)),
    if_pos (by decide : toUpperChars (trimChars "TEMP".toList) = "TEMP".toList),
    toFixed1_36_7]

/-- Evaluation of the forEach body on the pair "AX:0.10": updates the accel
copy, not the result object. -/
theorem parsePair_AX0_10 (st : ParsedFields × Accel) :
    parsePair st "AX:0.10".toList = (st.1, { st.2 with x := 1/10 }) := by
  have hsp : splitOnChar ':' "AX:0.10".toList = ["AX".toList, "0.10".toList] := by decide
  simp only [parsePair, hsp]
  rw [if_neg (by decide : ¬("AX".toList.isEmpty = true ∨ "0.10".toList.isEmpty = true))]
  simp only [parseFloatL_0_10]
  rw [if_pos (by decide : toUpperChars (trimChars "AX".toList) = "AX".toList)]

/-- parseFloat("5") = 5. -/
theorem parseFloatL_5 : parseFloatL "5".toList = some 5 := by
  have h1 : parseFloatL "5".toList =
      some ((digitsToNat ['5'] : ℚ) * parseExponent []) := rfl
  rw [h1, show digitsToNat ['5'] = 5 from by decide, show parseExponent [] = 1 from rfl]
  norm_num

/-- Evaluation of the forEach body on the pair "AY:5": updates the accel
copy, not the result object. -/
theorem parsePair_AY5 (st : ParsedFields × Accel) :
    parsePair st "AY:5".toList = (st.1, { st.2 with y := 5 }) := by
  have hsp : splitOnChar ':' "AY:5".toList = ["AY".toList, "5".toList] := by decide
  simp only [parsePair, hsp]
  rw [if_neg (by decide : ¬("AY".toList.isEmpty = true ∨ "5".toList.isEmpty = true))]
  simp only [parseFloatL_5]
  rw [if_neg (by decide : ¬(toUpperChars (trimChars "AY".toList) = "AX".toList)),
    if_pos (by decide : toUpperChars (trimChars "AY".toList) = "AY".toList)]

/-- A skipped pair leaves the forEach state untouched. -/
theorem parsePair_of_skipped (st : ParsedFields × Accel) (p : List Char)
    (h : pairSkipped p = true) : parsePair st p = st := by
  rcases hsp : splitOnChar ':' p with _ | ⟨key, rest1⟩
  · simp only [parsePair, hsp]
  · rcases rest1 with _ | ⟨val, rest⟩
    · simp only [parsePair, hsp]
    · simp only [pairSkipped, hsp] at h
      simp only [parsePair, hsp]
      by_cases hkv : key.isEmpty = true ∨ val.isEmpty = true
      · rw [if_pos hkv]
      · rw [if_neg hkv] at h
        rw [if_neg hkv]
        by_cases hinf : isInfinityLit val = true
        · rw [if_pos hinf] at h
          exact absurd h (by simp)
        · rw [if_neg hinf] at h
          rcases hpf : parseFloatL val with _ | w
          · simp only [hpf]
          · simp only [hpf, decide_eq_true_eq] at h
            simp only [hpf]
            push_neg at h
            obtain ⟨e1, e2, e3, e4, e5, e6, e7⟩ := h
            rw [if_neg e1, if_neg e2, if_neg e3, if_neg e4, if_neg e5, if_neg e6, if_neg e7]

/-- A fold over pairs that are all skipped returns its initial state. -/
theorem foldl_parsePair_skipped (parts : List (List Char)) :
    ∀ init : ParsedFields × Accel,
      (∀ p ∈ parts, pairSkipped p = true) → parts.foldl parsePair init = init := by
  induction parts with
  | nil => intro init _; rfl
  | cons a t ih =>
    intro init h
    rw [List.foldl_cons, parsePair_of_skipped init a (h a (by simp))]
    exact ih init (fun p hp => h p (by simp [hp]))

/-- A line all of whose pairs are skipped decodes to the empty field set. -/
theorem parseData_of_skipped (d : SensorData) (l : List Char)
    (h : ∀ p ∈ splitOnChar ',' l, pairSkipped p = true) :
    parseData d l = emptyParsed := by
  simp only [parseData]
  rw [foldl_parsePair_skipped _ _ h]
  simp

/-- C5, failing-input evaluation: the subscription callback registered at
connect (src/App.tsx line 97) parses every line against the connect-render
snapshot of the store, so once the live store's accelerometer has diverged
from that snapshot — here y = 5 after the line "AY:5" — a line specifying
only HR, TEMP and AX rebuilds the accelerometer from the stale snapshot,
wholesale-overwrites it, and resets y to the snapshot value 0: a field the
line never specified loses its prior value, contradicting the claim.  The
heartRate conjunct shows the line was otherwise processed normally. -/
theorem handleData_stale_snapshot_resets_axes :
    (handleDataL initialData initialData ("AY:5".toList)).accelerometer.y = 5 ∧
    (handleDataL initialData (handleDataL initialData initialData ("AY:5".toList))
        ("HR:81,TEMP:36.7,AX:0.10".toList)).accelerometer.y = 0 ∧
    (handleDataL initialData (handleDataL initialData initialData ("AY:5".toList))
        ("HR:81,TEMP:36.7,AX:0.10".toList)).heartRate = 81 := by
  have hini : initialData.accelerometer = Accel.mk 0 0 (49/5) := rfl
  have hs1 : splitOnChar ',' ("AY:5".toList) = ["AY:5".toList] := by decide
  have hfold1 : (splitOnChar ',' ("AY:5".toList)).foldl parsePair
      (emptyParsed, Accel.mk (0 : ℚ) 0 (49/5)) =
      (emptyParsed, Accel.mk (0 : ℚ) 5 (49/5)) := by
    rw [hs1, List.foldl_cons, parsePair_AY5, List.foldl_nil]
  have hp1 : parseData initialData ("AY:5".toList) =
      ({ accelerometer := some (Accel.mk (0 : ℚ) 5 (49/5)) } : ParsedFields) := by
    simp only [parseData, hini, hfold1]
    rfl
  have hrun1 : handleDataL initialData initialData ("AY:5".toList) =
      { initialData with accelerometer := Accel.mk (0 : ℚ) 5 (49/5) } := by
    have hL1 : handleDataL initialData initialData ("AY:5".toList) =
        (if parseData initialData ("AY:5".toList) = emptyParsed then initialData
         else applyParsed initialData (parseData initialData ("AY:5".toList))) := rfl
    rw [hL1, hp1, if_neg (by decide :
      ¬(({ accelerometer := some (Accel.mk (0 : ℚ) 5 (49/5)) } : ParsedFields)
        = emptyParsed))]
    rfl
  have hs2 : splitOnChar ',' ("HR:81,TEMP:36.7,AX:0.10".toList) =
      ["HR:81".toList, "TEMP:36.7".toList, "AX:0.10".toList] := by decide
  have hfold2 : (splitOnChar ',' ("HR:81,TEMP:36.7,AX:0.10".toList)).foldl parsePair
      (emptyParsed, Accel.mk (0 : ℚ) 0 (49/5)) =
      (({ heartRate := some 81, temperature := some (367/10) } : ParsedFields),
        Accel.mk (1/10 : ℚ) 0 (49/5)) := by
    rw [hs2, List.foldl_cons, parsePair_HR81, List.foldl_cons, parsePair_TEMP36_7,
      List.foldl_cons, parsePair_AX0_10, List.foldl_nil]
    rfl
  have hp2 : parseData initialData ("HR:81,TEMP:36.7,AX:0.10".toList) =
      ({ heartRate := some 81, temperature := some (367/10),
         accelerometer := some (Accel.mk (1/10 : ℚ) 0 (49/5)) } : ParsedFields) := by
    simp only [parseData, hini, hfold2]
    rw [if_neg (by norm_num [Accel.mk.injEq] :
      ¬(Accel.mk (1/10 : ℚ) 0 (49/5) = Accel.mk (0 : ℚ) 0 (49/5)))]
  have hrun2 : handleDataL initialData
      ({ initialData with accelerometer := Accel.mk (0 : ℚ) 5 (49/5) })
      ("HR:81,TEMP:36.7,AX:0.10".toList) =
      { initialData with
        heartRate := 81, temperature := 367/10,
        accelerometer := Accel.mk (1/10 : ℚ) 0 (49/5) } := by
    have hL2 : handleDataL initialData
        ({ initialData with accelerometer := Accel.mk (0 : ℚ) 5 (49/5) })
        ("HR:81,TEMP:36.7,AX:0.10".toList) =
        (if parseData initialData ("HR:81,TEMP:36.7,AX:0.10".toList) = emptyParsed
         then { initialData with accelerometer := Accel.mk (0 : ℚ) 5 (49/5) }
         else applyParsed { initialData with accelerometer := Accel.mk (0 : ℚ) 5 (49/5) }
           (parseData initialData ("HR:81,TEMP:36.7,AX:0.10".toList))) := rfl
    rw [hL2, hp2, if_neg (by decide :
      ¬(({ heartRate := some 81, temperature := some (367/10),
           accelerometer := some (Accel.mk (1/10 : ℚ) 0 (49/5)) } : ParsedFields)
        = emptyParsed))]
    rfl
  refine ⟨?_, ?_, ?_⟩
  · simp only [hrun1]
  · simp only [hrun1, hrun2]
  · simp only [hrun1, hrun2]

/-- C6 counterexample: the well-formed object line is not decoded in object
form: fed through the flat parser it matches no symbol-table key, so the
Reading Store is unchanged and the heart-rate does not become 95 as the
claim requires (no status field exists in the store at all). -/
theorem objectForm_line_not_decoded :
    handleData initialData initialData "\x7b\"bpm\":95,\"status\":\"WARNING\"\x7d"
      = initialData ∧
    (handleData initialData initialData
      "\x7b\"bpm\":95,\"status\":\"WARNING\"\x7d").heartRate ≠ 95 := by
  have hL : handleData initialData initialData "\x7b\"bpm\":95,\"status\":\"WARNING\"\x7d" =
      (if parseData initialData ("\x7b\"bpm\":95,\"status\":\"WARNING\"\x7d".toList)
          = emptyParsed then initialData
       else applyParsed initialData
         (parseData initialData ("\x7b\"bpm\":95,\"status\":\"WARNING\"\x7d".toList))) := rfl
  have hmain : handleData initialData initialData "\x7b\"bpm\":95,\"status\":\"WARNING\"\x7d"
      = initialData := by
    rw [hL, parseData_of_skipped initialData _ (by decide), if_pos rfl]
  refine ⟨hmain, ?_⟩
  rw [hmain]
  norm_num [initialData]

/-- C6 amended: a line whose first character is a left brace is not decoded
as an object; it goes through the flat comma/colon parser, where every pair
of this line fails the symbol-table match, so whatever the closure snapshot
and the live store hold, the whole line changes no field and no parse
failure is raised. -/
theorem objectForm_line_silently_ignored (snap prev : SensorData) :
    handleData snap prev "\x7b\"bpm\":95,\"status\":\"WARNING\"\x7d" = prev := by
  have hL : handleData snap prev "\x7b\"bpm\":95,\"status\":\"WARNING\"\x7d" =
      (if parseData snap ("\x7b\"bpm\":95,\"status\":\"WARNING\"\x7d".toList)
          = emptyParsed then prev
       else applyParsed prev
         (parseData snap ("\x7b\"bpm\":95,\"status\":\"WARNING\"\x7d".toList))) := rfl
  rw [hL, parseData_of_skipped snap _ (by decide), if_pos rfl]

/-- Feeding chunks in sequence equals feeding their concatenation. -/
theorem feedChunks_flatten (st : PipeState) (cs : List (List Char)) :
    feedChunks st cs = feedChunk st cs.flatten := by
  induction cs generalizing st with
  | nil => rfl
  | cons c t ih =>
    have h1 : feedChunks st (c :: t) = feedChunks (feedChunk st c) t := rfl
    rw [h1, ih]
    show feedChunk (feedChunk st c) t.flatten = feedChunk st (c ++ t.flatten)
    unfold feedChunk
    rw [List.foldl_append]

/-- C8: the final Reading Store state depends only on the reassembled byte
stream, not on how it was partitioned into chunks (chunking-invariance of
the delimiter-mode pipeline); and an empty or whitespace-only delivered line
is silently ignored by handleData, whatever the snapshot and live store. -/
theorem ingestion_chunking_invariant :
    (∀ (st : PipeState) (cs₁ cs₂ : List (List Char)),
        cs₁.flatten = cs₂.flatten → feedChunks st cs₁ = feedChunks st cs₂) ∧
    (∀ (snap prev : SensorData) (raw : List Char),
        trimChars raw = [] → handleDataL snap prev raw = prev) := by
  constructor
  · intro st cs1 cs2 h
    rw [feedChunks_flatten, feedChunks_flatten, h]
  · intro snap prev raw h
    simp [handleDataL, h]

/-- Witness for C8: two partitions of the same two-line stream give the same
store, and a whitespace-only line is ignored. -/
theorem ingestion_chunking_invariant_witness :
    (["HR:8".toList, "1\nTEMP:36.7\n".toList].flatten =
      ["HR:81\n".toList, "TEMP:36.7\n".toList].flatten) ∧
    feedChunks { snap := initialData, store := initialData, buf := [] }
        ["HR:8".toList, "1\nTEMP:36.7\n".toList] =
      feedChunks { snap := initialData, store := initialData, buf := [] }
        ["HR:81\n".toList, "TEMP:36.7\n".toList] ∧
    trimChars " \t ".toList = [] ∧
    handleDataL initialData initialData " \t ".toList = initialData :=
  ⟨by decide, ingestion_chunking_invariant.1 _ _ _ (by decide),
    by decide, ingestion_chunking_invariant.2 initialData initialData _ (by decide)⟩

/-- C10: a flat-form value with a valid numeric prefix followed by trailing
non-numeric characters is used via its prefix — "HR:81abc" sets heartRate to
81 on the live store, whatever the closure snapshot — while a value with no
numeric prefix at all ("HR:abc") is treated as absent and the pair is
ignored. -/
theorem parseFloat_numeric_head_used :
    (∀ snap prev : SensorData,
        handleData snap prev "HR:81abc" = { prev with heartRate := 81 }) ∧
    (∀ snap prev : SensorData, handleData snap prev "HR:abc" = prev) ∧
    parseFloatL "81abc".toList = some 81 ∧
    parseFloatL "abc".toList = none := by
  refine ⟨?_, ?_, parseFloatL_81abc, by decide⟩
  · intro snap prev
    have hL : handleData snap prev "HR:81abc" =
        (if parseData snap ("HR:81abc".toList) = emptyParsed then prev
         else applyParsed prev (parseData snap ("HR:81abc".toList))) := rfl
    have hs : splitOnChar ',' ("HR:81abc".toList) = ["HR:81abc".toList] := by decide
    have hp : parseData snap ("HR:81abc".toList) =
        ({ heartRate := some 81 } : ParsedFields) := by
      simp only [parseData]
      rw [hs, List.foldl_cons, parsePair_HR81abc, List.foldl_nil, if_pos rfl]
      rfl
    rw [hL, hp, if_neg (by decide :
      ¬(({ heartRate := some 81 } : ParsedFields) = emptyParsed))]
    rfl
  · intro snap prev
    have hL : handleData snap prev "HR:abc" =
        (if parseData snap ("HR:abc".toList) = emptyParsed then prev
         else applyParsed prev (parseData snap ("HR:abc".toList))) := rfl
    rw [hL, parseData_of_skipped snap _ (by decide), if_pos rfl]

end HC06
